import Mathlib

/-!
Verification of the candlestick-chart components of the repository
(`RealStockChart.tsx`, `InteractiveStockChart.tsx` (= `src/unnamed/part_002`),
`YahooFinanceChart.tsx`, `StockChart.tsx`).

The TypeScript code is shallowly embedded: JavaScript numbers are modelled as
exact rationals (`ℚ`), `Math.floor` as `Int.floor`, `Math.round` as `round`
(both round half-up, as in JavaScript), `x.toFixed(2)` as rounding to two
decimals, and component state updates as pure functions on an explicit state
record.  Where IEEE special values (`Infinity`, `NaN`) matter (the rendering
pipeline's division by a zero price range) we use the explicit `JsNum` type
with JavaScript's arithmetic on those values.
-/

/-- One OHLCV data point (interface `StockData` in the sources).  `date` is the
calendar day number (JS builds `YYYY-MM-DD` strings from a timestamp; we keep
the day number, which orders identically).  The field `open` of the source is
called `opn` here because `open` is a Lean keyword. -/
structure StockData where
  date : ℤ
  opn : ℚ
  high : ℚ
  low : ℚ
  close : ℚ
  volume : ℚ
deriving DecidableEq, Repr

/-- Component state of `RealStockChart` / `InteractiveStockChart`
(interface `ChartState` in the sources). -/
structure ChartState where
  startIndex : ℤ
  endIndex : ℤ
  scale : ℚ
  dragStartX : Option ℚ
  isDragging : Bool
  viewportStart : ℤ
  viewportEnd : ℤ
deriving DecidableEq, Repr

/-- The commit step shared verbatim by `handleWheel`, `zoomIn` and `zoomOut` in
`RealStockChart.tsx`: `center = (viewportStart + viewportEnd) / 2`,
`newStart = Math.max(0, Math.floor(center - newVisible / 2))`,
`newEnd = Math.min(stockData.length, newStart + newVisible)`. -/
def zoomTo (length newVisible : ℤ) (s : ChartState) : ChartState :=
  let center : ℚ := ((s.viewportStart + s.viewportEnd : ℤ) : ℚ) / 2
  let newStart : ℤ := max 0 ⌊center - (newVisible : ℚ) / 2⌋
  let newEnd : ℤ := min length (newStart + newVisible)
  { s with viewportStart := newStart, viewportEnd := newEnd }

/-- `handleWheel` of `RealStockChart.tsx` (lines 356-377; identical in
`InteractiveStockChart`): `zoomFactor = e.deltaY > 0 ? 1.1 : 0.9`,
`maxVisible = Math.max(10, stockData.length)`,
`newVisible = Math.min(maxVisible, Math.max(10, Math.floor(currentVisible * zoomFactor)))`,
committed only when `newVisible !== currentVisible`. -/
def handleWheel (length : ℤ) (deltaY : ℚ) (s : ChartState) : ChartState :=
  let zoomFactor : ℚ := if 0 < deltaY then 11/10 else 9/10
  let maxVisible : ℤ := max 10 length
  let currentVisible : ℤ := s.viewportEnd - s.viewportStart
  let newVisible : ℤ := min maxVisible (max 10 ⌊(currentVisible : ℚ) * zoomFactor⌋)
  if newVisible ≠ currentVisible then zoomTo length newVisible s else s

/-- `zoomIn` of `RealStockChart.tsx` (lines 424-436):
`newVisible = Math.max(10, Math.floor(currentVisible * 0.8))`. -/
def zoomIn (length : ℤ) (s : ChartState) : ChartState :=
  let currentVisible : ℤ := s.viewportEnd - s.viewportStart
  let newVisible : ℤ := max 10 ⌊(currentVisible : ℚ) * (4/5)⌋
  zoomTo length newVisible s

/-- `zoomOut` of `RealStockChart.tsx` (lines 438-450):
`newVisible = Math.min(stockData.length, Math.floor(currentVisible * 1.2))`. -/
def zoomOut (length : ℤ) (s : ChartState) : ChartState :=
  let currentVisible : ℤ := s.viewportEnd - s.viewportStart
  let newVisible : ℤ := min length ⌊(currentVisible : ℚ) * (6/5)⌋
  zoomTo length newVisible s

/-- `handleMouseDown` of `RealStockChart.tsx` (lines 379-385). -/
def handleMouseDown (clientX : ℚ) (s : ChartState) : ChartState :=
  { s with isDragging := true, dragStartX := some clientX }

/-- `handleMouseMove` of `RealStockChart.tsx` (lines 387-414; identical in
`InteractiveStockChart` part_002 lines 301-328 and `YahooFinanceChart`):
returns unchanged unless dragging with a recorded anchor; computes
`sensitivity = (viewportEnd - viewportStart) / canvas.width`,
`offset = Math.floor(deltaX * sensitivity)` and commits the shifted window
only when `Math.abs(offset) > 0` and the clamped window keeps its exact size. -/
def handleMouseMove (length : ℤ) (canvasWidth clientX : ℚ) (s : ChartState) : ChartState :=
  match s.isDragging, s.dragStartX with
  | true, some dragStartX =>
    let deltaX : ℚ := clientX - dragStartX
    let sensitivity : ℚ := ((s.viewportEnd - s.viewportStart : ℤ) : ℚ) / canvasWidth
    let offset : ℤ := ⌊deltaX * sensitivity⌋
    if 0 < |offset| then
      let newStart : ℤ := max 0 (s.viewportStart - offset)
      let newEnd : ℤ := min length (s.viewportEnd - offset)
      let viewportSize : ℤ := s.viewportEnd - s.viewportStart
      if newEnd - newStart = viewportSize then
        { s with viewportStart := newStart, viewportEnd := newEnd, dragStartX := some clientX }
      else s
    else s
  | _, _ => s

/-- `handleMouseUp` of `RealStockChart.tsx` (lines 416-422), also used for
`onMouseLeave`. -/
def handleMouseUp (s : ChartState) : ChartState :=
  { s with isDragging := false, dragStartX := none }

/-- `resetView` of `RealStockChart.tsx` (lines 452-458; identical in
`InteractiveStockChart` part_002 lines 367-373): only the two viewport indices
are replaced, every other field is spread from the previous state. -/
def resetView (length : ℤ) (s : ChartState) : ChartState :=
  { s with viewportStart := 0, viewportEnd := length }

/-- Viewport operations that the chart components expose. -/
inductive ChartOp where
  | wheel (deltaY : ℚ)
  | zoomInBtn
  | zoomOutBtn
  | mouseDown (clientX : ℚ)
  | mouseMove (canvasWidth clientX : ℚ)
  | mouseUp
  | reset
deriving Repr

/-- Dispatch one operation on the chart state. -/
def applyOp (length : ℤ) : ChartOp → ChartState → ChartState
  | .wheel deltaY => handleWheel length deltaY
  | .zoomInBtn => zoomIn length
  | .zoomOutBtn => zoomOut length
  | .mouseDown clientX => handleMouseDown clientX
  | .mouseMove canvasWidth clientX => handleMouseMove length canvasWidth clientX
  | .mouseUp => handleMouseUp
  | .reset => resetView length

/-- Apply a sequence of operations, oldest first. -/
def applyOps (length : ℤ) (ops : List ChartOp) (s : ChartState) : ChartState :=
  ops.foldl (fun t op => applyOp length op t) s

/-- The state right after a series of `length` points loads: the effect of the
`useState` initialiser followed by `setChartState` in `loadData`
(`viewportStart = 0`, `viewportEnd = data.length`). -/
def initChartState (length : ℤ) : ChartState :=
  { startIndex := 0, endIndex := length, scale := 1, dragStartX := none,
    isDragging := false, viewportStart := 0, viewportEnd := length }

/-- The viewport invariant of the spec:
`0 ≤ start < end ≤ length` and `end - start ∈ [10, length]`. -/
def viewportInvariant (length : ℤ) (s : ChartState) : Prop :=
  0 ≤ s.viewportStart ∧ s.viewportStart < s.viewportEnd ∧ s.viewportEnd ≤ length ∧
    10 ≤ s.viewportEnd - s.viewportStart ∧ s.viewportEnd - s.viewportStart ≤ length

instance (length : ℤ) (s : ChartState) : Decidable (viewportInvariant length s) := by
  unfold viewportInvariant; infer_instance

example :
    (handleWheel 90 1 (initChartState 90)).viewportEnd = 90 := by
  norm_num [handleWheel, zoomTo, initChartState]

example :
    (zoomIn 90 (initChartState 90)).viewportStart = 9 ∧
      (zoomIn 90 (initChartState 90)).viewportEnd = 81 := by
  norm_num [zoomIn, zoomTo, initChartState]

theorem two_mul_floor_int_half_le (n : ℤ) : 2 * ⌊(n : ℚ) / 2⌋ ≤ n := by
  have h := Int.floor_le ((n : ℚ) / 2)
  have h2 : ((2 * ⌊(n : ℚ) / 2⌋ : ℤ) : ℚ) ≤ ((n : ℤ) : ℚ) := by push_cast; linarith
  exact_mod_cast h2

theorem zoomTo_viewportInvariant {L v : ℤ} (s : ChartState)
    (hv10 : 10 ≤ v) (hvL : v ≤ L) (hinv : viewportInvariant L s) :
    viewportInvariant L (zoomTo L v s) := by
  obtain ⟨h0, hlt, hle, h10, hlen⟩ := hinv
  have hx : ((s.viewportStart + s.viewportEnd : ℤ) : ℚ) / 2 - (v : ℚ) / 2
      = ((s.viewportStart + s.viewportEnd - v : ℤ) : ℚ) / 2 := by push_cast; ring
  have h2c := two_mul_floor_int_half_le (s.viewportStart + s.viewportEnd - v)
  unfold zoomTo viewportInvariant
  simp only [hx]
  omega

theorem handleWheel_viewportInvariant {L : ℤ} (deltaY : ℚ) (s : ChartState)
    (hL : 10 ≤ L) (hinv : viewportInvariant L s) :
    viewportInvariant L (handleWheel L deltaY s) := by
  obtain ⟨h0, hlt, hle, h10, hlen⟩ := hinv
  simp only [handleWheel]
  split_ifs with h1 h2 h3 <;>
    first
      | exact zoomTo_viewportInvariant s (by omega) (by omega) ⟨h0, hlt, hle, h10, hlen⟩
      | exact ⟨h0, hlt, hle, h10, hlen⟩

theorem handleMouseMove_viewportInvariant {L : ℤ} (canvasWidth clientX : ℚ) (s : ChartState)
    (hinv : viewportInvariant L s) :
    viewportInvariant L (handleMouseMove L canvasWidth clientX s) := by
  obtain ⟨h0, hlt, hle, h10, hlen⟩ := hinv
  simp only [handleMouseMove]
  split
  · split_ifs with h1 h2
    · simp only [viewportInvariant]
      omega
    · exact ⟨h0, hlt, hle, h10, hlen⟩
    · exact ⟨h0, hlt, hle, h10, hlen⟩
  · exact ⟨h0, hlt, hle, h10, hlen⟩

theorem floor_mul_four_fifths_le (v : ℤ) (hv : 0 ≤ v) : ⌊(v : ℚ) * (4/5)⌋ ≤ v := by
  calc ⌊(v : ℚ) * (4/5)⌋ ≤ ⌊(v : ℚ)⌋ := by
        apply Int.floor_le_floor
        have hnn : (0 : ℚ) ≤ (v : ℚ) := by exact_mod_cast hv
        linarith
    _ = v := Int.floor_intCast _

theorem le_floor_mul_six_fifths (v : ℤ) (hv : 0 ≤ v) : v ≤ ⌊(v : ℚ) * (6/5)⌋ := by
  apply Int.le_floor.mpr
  have hnn : (0 : ℚ) ≤ (v : ℚ) := by exact_mod_cast hv
  linarith

theorem applyOp_viewportInvariant {L : ℤ} (op : ChartOp) (s : ChartState)
    (hL : 10 ≤ L) (hinv : viewportInvariant L s) :
    viewportInvariant L (applyOp L op s) := by
  obtain ⟨h0, hlt, hle, h10, hlen⟩ := hinv
  cases op with
  | wheel deltaY => exact handleWheel_viewportInvariant deltaY s hL ⟨h0, hlt, hle, h10, hlen⟩
  | zoomInBtn =>
      have hfle := floor_mul_four_fifths_le (s.viewportEnd - s.viewportStart) (by omega)
      simp only [applyOp, zoomIn]
      exact zoomTo_viewportInvariant s (by omega) (by omega) ⟨h0, hlt, hle, h10, hlen⟩
  | zoomOutBtn =>
      have hfge := le_floor_mul_six_fifths (s.viewportEnd - s.viewportStart) (by omega)
      simp only [applyOp, zoomOut]
      exact zoomTo_viewportInvariant s (by omega) (by omega) ⟨h0, hlt, hle, h10, hlen⟩
  | mouseDown clientX => exact ⟨h0, hlt, hle, h10, hlen⟩
  | mouseMove canvasWidth clientX =>
      exact handleMouseMove_viewportInvariant canvasWidth clientX s ⟨h0, hlt, hle, h10, hlen⟩
  | mouseUp => exact ⟨h0, hlt, hle, h10, hlen⟩
  | reset =>
      simp only [applyOp, resetView, viewportInvariant]
      omega

theorem initChartState_viewportInvariant {L : ℤ} (hL : 10 ≤ L) :
    viewportInvariant L (initChartState L) := by
  unfold initChartState viewportInvariant
  simp only
  omega

/-- C1: starting from the full-range viewport over a series of length at least
10, every finite sequence of viewport operations (wheel zoom, zoom buttons,
drag pointer moves, reset, plus the pointer down/up transitions) leaves the
viewport satisfying `0 ≤ start < end ≤ length` and `end - start ∈ [10, length]`.
Since this holds for every operation list, it holds after every prefix of any
operation sequence. -/
theorem claim_C1_viewport_invariant (length : ℤ) (hL : 10 ≤ length)
    (ops : List ChartOp) :
    viewportInvariant length (applyOps length ops (initChartState length)) := by
  suffices h : ∀ s : ChartState, viewportInvariant length s →
      viewportInvariant length (applyOps length ops s) from
    h _ (initChartState_viewportInvariant hL)
  induction ops with
  | nil => intro s hs; exact hs
  | cons op rest ih =>
      intro s hs
      have hstep := applyOp_viewportInvariant op s hL hs
      simpa only [applyOps, List.foldl] using ih (applyOp length op s) hstep

/-- Witness for C1 at a concrete series length and operation sequence. -/
theorem claim_C1_viewport_invariant_witness :
    (10 : ℤ) ≤ 90 ∧
      viewportInvariant 90
        (applyOps 90
          [ChartOp.zoomInBtn, ChartOp.mouseDown 100, ChartOp.mouseMove 800 20,
            ChartOp.mouseUp, ChartOp.wheel 1, ChartOp.reset]
          (initChartState 90)) :=
  ⟨by norm_num, claim_C1_viewport_invariant 90 (by norm_num) _⟩

/-- Integer clamp, written as in the spec: `clamp(x, lo, hi)`. -/
def clamp (x lo hi : ℤ) : ℤ := max lo (min hi x)

/-- Modelled from the spec (§4.4 `wheel(deltaY)`), for comparison with the
code's `handleWheel`: `newSize = clamp(round((end-start) * zoomFactor), 10,
length)`; `newStart = clamp(floor(center - newSize/2), 0, length - newSize)`;
`newEnd = newStart + newSize`, so the committed window has size exactly
`newSize`. -/
def specWheel (length : ℤ) (deltaY : ℚ) (s : ChartState) : ChartState :=
  let zoomFactor : ℚ := if 0 < deltaY then 11/10 else 9/10
  let newSize : ℤ := clamp (round (((s.viewportEnd - s.viewportStart : ℤ) : ℚ) * zoomFactor)) 10 length
  let center : ℚ := ((s.viewportStart + s.viewportEnd : ℤ) : ℚ) / 2
  let newStart : ℤ := clamp ⌊center - (newSize : ℚ) / 2⌋ 0 (length - newSize)
  { s with viewportStart := newStart, viewportEnd := newStart + newSize }

/-- Modelled from the amended claim: the code's wheel zoom computes
`newSize = clamp(floor((end-start) * zoomFactor), 10, max(10, length))`,
leaves the state unchanged when `newSize` equals the current size, and
otherwise sets `newStart = max(0, floor(center - newSize/2))` and
`newEnd = min(length, newStart + newSize)` - clamping the end by the series
length instead of preserving `newSize` exactly. -/
def specWheelFloor (length : ℤ) (deltaY : ℚ) (s : ChartState) : ChartState :=
  let zoomFactor : ℚ := if 0 < deltaY then 11/10 else 9/10
  let newSize : ℤ :=
    clamp ⌊((s.viewportEnd - s.viewportStart : ℤ) : ℚ) * zoomFactor⌋ 10 (max 10 length)
  if newSize = s.viewportEnd - s.viewportStart then s
  else
    let center : ℚ := ((s.viewportStart + s.viewportEnd : ℤ) : ℚ) / 2
    let newStart : ℤ := max 0 ⌊center - (newSize : ℚ) / 2⌋
    { s with viewportStart := newStart, viewportEnd := min length (newStart + newSize) }

/-- Helper building a concrete chart state for the concrete evaluations
below (the `startIndex`/`endIndex`/`scale` legacy fields are irrelevant to
the viewport operations). -/
def mkChartState (viewportStart viewportEnd : ℤ) (isDragging : Bool)
    (dragStartX : Option ℚ) : ChartState :=
  { startIndex := 0, endIndex := viewportEnd, scale := 1, dragStartX := dragStartX,
    isDragging := isDragging, viewportStart := viewportStart, viewportEnd := viewportEnd }

/-- C2, counterexample: on a series of length 90 with viewport `(0, 15)` and a
zoom-out wheel event, the spec formula (`round`, size-preserving re-centering)
yields the window `(0, 17)` of size `17 = clamp(round(15 * 1.1), 10, 90)`,
but the code commits the window `(0, 16)` of size 16: `handleWheel` floors
`15 * 1.1 = 16.5` instead of rounding it. -/
theorem claim_C2_counterexample :
    (handleWheel 90 1 (mkChartState 0 15 false none)).viewportEnd -
      (handleWheel 90 1 (mkChartState 0 15 false none)).viewportStart = 16 ∧
    clamp (round ((15 : ℚ) * (11/10))) 10 90 = 17 ∧
    (specWheel 90 1 (mkChartState 0 15 false none)).viewportEnd -
      (specWheel 90 1 (mkChartState 0 15 false none)).viewportStart = 17 := by
  refine ⟨?_, ?_, ?_⟩
  · norm_num [handleWheel, zoomTo, mkChartState]
  · norm_num [clamp, round_eq]
  · norm_num [specWheel, clamp, round_eq, mkChartState]

theorem max_min_comm_of_le {lo hi x : ℤ} (h : lo ≤ hi) :
    min hi (max lo x) = max lo (min hi x) := by omega

/-- C2, amended: for every series length, wheel input and state, `handleWheel`
equals the amended spec transition `specWheelFloor`: the new size uses `floor`
(not `round`) and is clamped to `[10, max(10, length)]`; the state is unchanged
when the size would not change; and the committed end index is clamped by the
series length, so the committed size is `min(newSize, length - newStart)`
rather than always exactly `newSize`. -/
theorem claim_C2_amended_wheel_eq_spec (length : ℤ) (deltaY : ℚ) (s : ChartState) :
    handleWheel length deltaY s = specWheelFloor length deltaY s := by
  simp only [handleWheel, specWheelFloor, zoomTo, clamp]
  rw [max_min_comm_of_le (by omega)]
  split_ifs with h1 h2 h2 <;> first | rfl | omega

/-- C4, counterexample: with canvas width 800, viewport `(10, 82)` (size 72)
and pointer delta `-80`, the sensitivity is `72/800 = 0.09` but the index
shift is `floor(-80 * 0.09) = floor(-7.2) = -8`, not `-7` as the claim states
(`-7` would be rounding toward zero, not toward negative infinity), so the
window shifts by `+8` to `(18, 90)`, not by `+7` to `(17, 89)`. -/
theorem claim_C4_counterexample :
    ⌊(-80 : ℚ) * ((72 : ℚ) / 800)⌋ = -8 ∧
    (handleMouseMove 100 800 20 (mkChartState 10 82 true (some 100))).viewportStart = 18 ∧
    (handleMouseMove 100 800 20 (mkChartState 10 82 true (some 100))).viewportStart ≠ 17 := by
  refine ⟨by norm_num, ?_, ?_⟩ <;> norm_num [handleMouseMove, mkChartState]

/-- C4, amended: for a drag pointer move with canvas width 800 px, viewport
size 72 and pointer delta `-80` px, the sensitivity is `72/800 = 0.09`, the
index shift is `floor(-80 * 0.09) = -8` (rounding toward negative infinity),
and the window shifts by `+8` indices, clamped to stay within bounds: from
`(10, 82)` over a series of length 100 the committed viewport is `(18, 90)`. -/
theorem claim_C4_amended_drag_scenario :
    (72 : ℚ) / 800 = 9/100 ∧
    ⌊(-80 : ℚ) * (9/100)⌋ = -8 ∧
    (handleMouseMove 100 800 20 (mkChartState 10 82 true (some 100))).viewportStart = 18 ∧
    (handleMouseMove 100 800 20 (mkChartState 10 82 true (some 100))).viewportEnd = 90 := by
  refine ⟨by norm_num, by norm_num, ?_, ?_⟩ <;> norm_num [handleMouseMove, mkChartState]

/-- C5, counterexample: over a series of length 100, viewport `(5, 77)`
(size 72), canvas width 800, a single large rightward drag of `+800` px
proposes an index shift of 72, which would overrun the left boundary; the
code does not clamp `start` at 0 - it rejects the move entirely, leaving the
viewport at `(5, 77)` instead of the claimed `(0, 72)`. -/
theorem claim_C5_counterexample :
    handleMouseMove 100 800 800 (mkChartState 5 77 true (some 0)) =
      mkChartState 5 77 true (some 0) ∧
    (handleMouseMove 100 800 800 (mkChartState 5 77 true (some 0))).viewportStart ≠ 0 := by
  constructor <;> norm_num [handleMouseMove, mkChartState]

/-- C5, amended: a drag pointer move never shrinks the window and never moves
it out of bounds - a proposed shift is committed only when the shifted window
fits entirely inside `[0, length]`, and otherwise the viewport is left
unchanged (in particular a drag large enough to overrun a boundary is ignored
rather than clamped to the boundary). -/
theorem claim_C5_amended_pan_safety (L : ℤ) (w cx : ℚ) (s : ChartState)
    (h0 : 0 ≤ s.viewportStart) (hle : s.viewportEnd ≤ L) :
    (handleMouseMove L w cx s).viewportEnd - (handleMouseMove L w cx s).viewportStart =
      s.viewportEnd - s.viewportStart ∧
    0 ≤ (handleMouseMove L w cx s).viewportStart ∧
    (handleMouseMove L w cx s).viewportEnd ≤ L := by
  simp only [handleMouseMove]
  split
  · split_ifs with h1 h2
    · simp only
      omega
    · exact ⟨rfl, h0, hle⟩
    · exact ⟨rfl, h0, hle⟩
  · exact ⟨rfl, h0, hle⟩

/-- Witness for the amended C5 at a concrete drag. -/
theorem claim_C5_amended_pan_safety_witness :
    0 ≤ (mkChartState 10 82 true (some 100)).viewportStart ∧
    (mkChartState 10 82 true (some 100)).viewportEnd ≤ 100 ∧
    ((handleMouseMove 100 800 20 (mkChartState 10 82 true (some 100))).viewportEnd -
        (handleMouseMove 100 800 20 (mkChartState 10 82 true (some 100))).viewportStart =
      (mkChartState 10 82 true (some 100)).viewportEnd -
        (mkChartState 10 82 true (some 100)).viewportStart ∧
    0 ≤ (handleMouseMove 100 800 20 (mkChartState 10 82 true (some 100))).viewportStart ∧
    (handleMouseMove 100 800 20 (mkChartState 10 82 true (some 100))).viewportEnd ≤ 100) :=
  ⟨by norm_num [mkChartState], by norm_num [mkChartState],
    claim_C5_amended_pan_safety 100 800 20 (mkChartState 10 82 true (some 100))
      (by norm_num [mkChartState]) (by norm_num [mkChartState])⟩

/-- C10: `resetView` sets `viewportStart = 0` and `viewportEnd = length` and
leaves every other field of the chart state unchanged; in particular
`isDragging` and `dragStartX` keep their previous values, so a reset issued
mid-drag leaves the controller in the dragging state. -/
theorem claim_C10_resetView_frame (L : ℤ) (s : ChartState) :
    (resetView L s).viewportStart = 0 ∧ (resetView L s).viewportEnd = L ∧
    (resetView L s).isDragging = s.isDragging ∧
    (resetView L s).dragStartX = s.dragStartX ∧
    (resetView L s).startIndex = s.startIndex ∧
    (resetView L s).endIndex = s.endIndex ∧
    (resetView L s).scale = s.scale :=
  ⟨rfl, rfl, rfl, rfl, rfl, rfl, rfl⟩

/-- Result source tag of a load: live API data or generated mock data. -/
inductive DataSource where
  | mock
  | api
deriving DecidableEq, Repr

/-- Observable outcome of one `loadData` run in `RealStockChart.tsx`:
the data, the `dataSource` tag, the `error` banner text (used as a
non-blocking warning - `RealStockChart` renders it inline next to the chart)
and the final `loading` flag. -/
structure LoadResult where
  stockData : List StockData
  dataSource : DataSource
  error : Option String
  loading : Bool
deriving Repr

/-- `loadData` of `RealStockChart.tsx` (lines 177-215) as a function of the
outcome of `fetchRealStockData` (which either resolves with data or throws,
modelled by `Except`) and of the `generateMockData` output: when
`useRealData` is set and the fetch throws, the catch block falls back to the
mock data, tags the result `mock` and stores the fallback warning text. -/
def loadData (useRealData : Bool) (fetched : Except String (List StockData))
    (mock : List StockData) : LoadResult :=
  if useRealData then
    match fetched with
    | .ok data => { stockData := data, dataSource := .api, error := none, loading := false }
    | .error _ =>
        { stockData := mock, dataSource := .mock,
          error := some "真实数据获取失败，显示模拟数据", loading := false }
  else { stockData := mock, dataSource := .mock, error := none, loading := false }

/-- C3: the load operation never throws - every fetch outcome resolves to a
result (`loading` ends up false); and on every failure path (synthetic
generation is always enabled in this code) the result carries the mock series,
is tagged `mock` rather than being an error-only state, and carries the
fallback warning annotation. -/
theorem claim_C3_load_fallback (mock : List StockData)
    (fetched : Except String (List StockData)) :
    (∀ msg, fetched = .error msg →
      (loadData true fetched mock).stockData = mock ∧
      (loadData true fetched mock).dataSource = DataSource.mock ∧
      (loadData true fetched mock).error.isSome = true) ∧
    (loadData true fetched mock).loading = false := by
  cases fetched <;> simp [loadData]

/-- Witness for C3 at a concrete failing fetch. -/
theorem claim_C3_load_fallback_witness :
    (Except.error "HTTP 500" : Except String (List StockData)) = Except.error "HTTP 500" ∧
    ((loadData true (Except.error "HTTP 500") ([] : List StockData)).stockData = [] ∧
      (loadData true (Except.error "HTTP 500") ([] : List StockData)).dataSource =
        DataSource.mock ∧
      (loadData true (Except.error "HTTP 500") ([] : List StockData)).error.isSome = true) :=
  ⟨rfl, (claim_C3_load_fallback [] (Except.error "HTTP 500")).1 "HTTP 500" rfl⟩

/-- Rounding to two decimals, the model of JavaScript
`Number(x.toFixed(2))` (ties round up, like `toFixed`). -/
def round2 (x : ℚ) : ℚ := ((round (x * 100) : ℤ) : ℚ) / 100

theorem round2_le_round2 {x y : ℚ} (h : x ≤ y) : round2 x ≤ round2 y := by
  unfold round2
  have h1 : round (x * 100) ≤ round (y * 100) := by
    rw [round_eq, round_eq]
    exact Int.floor_le_floor (by linarith)
  have h2 : ((round (x * 100) : ℤ) : ℚ) ≤ ((round (y * 100) : ℤ) : ℚ) := by exact_mod_cast h1
  linarith

theorem round2_zero : round2 0 = 0 := by norm_num [round2]

theorem round2_nonneg {x : ℚ} (h : 0 ≤ x) : 0 ≤ round2 x := by
  have := round2_le_round2 h
  rwa [round2_zero] at this

theorem round2_max (a b : ℚ) : round2 (max a b) = max (round2 a) (round2 b) := by
  rcases le_total a b with h | h
  · rw [max_eq_right h, max_eq_right (round2_le_round2 h)]
  · rw [max_eq_left h, max_eq_left (round2_le_round2 h)]

theorem round2_min (a b : ℚ) : round2 (min a b) = min (round2 a) (round2 b) := by
  rcases le_total a b with h | h
  · rw [min_eq_left h, min_eq_left (round2_le_round2 h)]
  · rw [min_eq_right h, min_eq_right (round2_le_round2 h)]

/-- Raw quote arrays of a live-source payload
(`result.indicators.quote[0]` zipped with `result.timestamp` by index).
An entry `none` models a JS `null`/`undefined`/`NaN` slot: all of these are
falsy, exactly like the number `0`, and that is the only way the normalizers
below inspect them.  (IEEE infinities are outside this model.) -/
structure RawQuote where
  opn : List (Option ℚ)
  high : List (Option ℚ)
  low : List (Option ℚ)
  close : List (Option ℚ)
  volume : List (Option ℚ)

/-- Day number of a unix timestamp: `new Date(ts * 1000).toISOString()`
truncated to the calendar day (86400 seconds per day, floored). -/
def tsToDate (ts : ℤ) : ℤ := Int.fdiv ts 86400

/-- JavaScript `(arr[index] || 0)`: out-of-range, `null` and `NaN` entries
(and an actual `0`) all give `0`. -/
def rawAt (l : List (Option ℚ)) (i : ℕ) : ℚ := (l.getD i none).getD 0

/-- Normalization step of `fetchRealStockData` in `RealStockChart.tsx`
(lines 84-96): map every timestamp index to a point built with
`(quotes.x[index] || 0)` rounded via `toFixed(2)`, then keep only points with
`item.open > 0 && item.close > 0`.  No sorting, and no check of
`high`, `low`, or `high < low`. -/
def fetchRealStockDataPoints (timestamps : List ℤ) (q : RawQuote) : List StockData :=
  ((List.range timestamps.length).map fun index =>
      ({ date := tsToDate (timestamps.getD index 0)
         opn := round2 (rawAt q.opn index)
         high := round2 (rawAt q.high index)
         low := round2 (rawAt q.low index)
         close := round2 (rawAt q.close index)
         volume := rawAt q.volume index } : StockData)).filter
    fun item => decide (0 < item.opn ∧ 0 < item.close)

/-- One loop iteration of `fetchYahooFinanceData` in `YahooFinanceChart.tsx`
(lines 81-103): the point is skipped (`continue`) when
`!open || !high || !low || !close || open <= 0 || close <= 0`; otherwise the
prices are rounded via `toFixed(2)` and the volume defaults with
`volume || 0`. -/
def yahooPointAt (timestamps : List ℤ) (q : RawQuote) (i : ℕ) : Option StockData :=
  match q.opn.getD i none, q.high.getD i none, q.low.getD i none, q.close.getD i none with
  | some o, some h, some l, some c =>
      if o = 0 ∨ h = 0 ∨ l = 0 ∨ c = 0 ∨ o ≤ 0 ∨ c ≤ 0 then none
      else some { date := tsToDate (timestamps.getD i 0), opn := round2 o, high := round2 h,
                  low := round2 l, close := round2 c,
                  volume := (q.volume.getD i none).getD 0 }
  | _, _, _, _ => none

/-- The final `stockData.sort((a, b) => dateTime(a) - dateTime(b))` of
`fetchYahooFinanceData` (line 109): a stable sort ascending by date,
modelled by insertion sort. -/
def sortByDate (l : List StockData) : List StockData :=
  List.insertionSort (fun a b => a.date ≤ b.date) l

/-- Normalization of `fetchYahooFinanceData` in `YahooFinanceChart.tsx`
(lines 79-109): collect the non-skipped points in timestamp order, then sort
ascending by date. -/
def fetchYahooFinanceDataPoints (timestamps : List ℤ) (q : RawQuote) : List StockData :=
  sortByDate ((List.range timestamps.length).filterMap (yahooPointAt timestamps q))

instance : IsTotal StockData (fun a b => a.date ≤ b.date) :=
  ⟨fun a b => Int.le_total a.date b.date⟩

instance : IsTrans StockData (fun a b => a.date ≤ b.date) :=
  ⟨fun _ _ _ hab hbc => le_trans hab hbc⟩

/-- A raw payload whose single point has `high = 1 < 5 = low` (all prices
positive and finite). -/
def invalidHighLowQuote : RawQuote :=
  { opn := [some 1], high := [some 1], low := [some 5], close := [some 1],
    volume := [some 1] }

/-- C6, counterexample: normalization does not drop points with
`high < low` - the payload `invalidHighLowQuote` (open 1, high 1, low 5,
close 1) passes both normalizers' filters and the emitted series contains a
point with `high < low`. -/
theorem claim_C6_counterexample :
    (fetchRealStockDataPoints [0] invalidHighLowQuote).map
        (fun p => (p.opn, p.high, p.low, p.close)) = [(1, 1, 5, 1)] ∧
    (fetchYahooFinanceDataPoints [0] invalidHighLowQuote).map
        (fun p => (p.opn, p.high, p.low, p.close)) = [(1, 1, 5, 1)] ∧
    (1 : ℚ) < 5 := by
  refine ⟨?_, ?_, by norm_num⟩
  · norm_num [fetchRealStockDataPoints, invalidHighLowQuote, rawAt, tsToDate, round2,
      round_eq, List.range_succ]
  · norm_num [fetchYahooFinanceDataPoints, yahooPointAt, sortByDate, invalidHighLowQuote,
      tsToDate, round2, round_eq, List.range_succ]

/-- C6, amended: validation is only on `open`/`close` positivity (plus the
falsy-skip of `null`/`NaN`/`0` fields): every point emitted by the
`RealStockChart` normalizer has rounded `open > 0` and `close > 0`, and every
point emitted by the `YahooFinanceChart` normalizer has raw `open > 0` and
`close > 0` before rounding, hence rounded values `≥ 0`; neither normalizer
rejects points with `high < low`, which are emitted unchanged. -/
theorem claim_C6_amended_normalization_filter :
    (∀ (timestamps : List ℤ) (q : RawQuote) (p : StockData),
        p ∈ fetchRealStockDataPoints timestamps q → 0 < p.opn ∧ 0 < p.close) ∧
    (∀ (timestamps : List ℤ) (q : RawQuote) (p : StockData),
        p ∈ fetchYahooFinanceDataPoints timestamps q → 0 ≤ p.opn ∧ 0 ≤ p.close) := by
  constructor
  · intro ts q p hp
    have h := List.of_mem_filter hp
    simpa using h
  · intro ts q p hp
    rw [fetchYahooFinanceDataPoints, sortByDate, List.mem_insertionSort] at hp
    obtain ⟨i, _, hf⟩ := List.mem_filterMap.mp hp
    rw [yahooPointAt] at hf
    split at hf
    · split_ifs at hf with hcond
      obtain rfl := Option.some.inj hf
      push_neg at hcond
      obtain ⟨-, -, -, -, ho, hc⟩ := hcond
      exact ⟨round2_nonneg (le_of_lt ho), round2_nonneg (le_of_lt hc)⟩
    · exact absurd hf (by simp)

/-- The single point emitted for `invalidHighLowQuote`. -/
def cexPointC6 : StockData :=
  { date := 0, opn := 1, high := 1, low := 5, close := 1, volume := 1 }

/-- Witness for the amended C6 at a concrete payload. -/
theorem claim_C6_amended_normalization_filter_witness :
    cexPointC6 ∈ fetchRealStockDataPoints [0] invalidHighLowQuote ∧
    (0 < cexPointC6.opn ∧ 0 < cexPointC6.close) := by
  have hmem : cexPointC6 ∈ fetchRealStockDataPoints [0] invalidHighLowQuote := by
    norm_num [fetchRealStockDataPoints, invalidHighLowQuote, cexPointC6, rawAt, tsToDate,
      round2, round_eq, List.range_succ]
  exact ⟨hmem, claim_C6_amended_normalization_filter.1 [0] invalidHighLowQuote cexPointC6 hmem⟩

/-- A two-point payload of valid prices whose timestamps arrive newest
first. -/
def twoOnesQuote : RawQuote :=
  { opn := [some 1, some 1], high := [some 1, some 1], low := [some 1, some 1],
    close := [some 1, some 1], volume := [some 1, some 1] }

/-- C7, counterexample: the `RealStockChart` normalizer emits points in the
payload's timestamp order without sorting: for timestamps arriving newest
first (day 2 then day 1) the returned series has dates `[2, 1]`, which is not
sorted ascending. -/
theorem claim_C7_counterexample :
    (fetchRealStockDataPoints [172800, 86400] twoOnesQuote).map StockData.date = [2, 1] ∧
    ¬ List.Sorted (fun a b : ℤ => a < b)
        ((fetchRealStockDataPoints [172800, 86400] twoOnesQuote).map StockData.date) := by
  have hmap : (fetchRealStockDataPoints [172800, 86400] twoOnesQuote).map StockData.date
      = [2, 1] := by
    norm_num [fetchRealStockDataPoints, twoOnesQuote, rawAt, tsToDate, round2, round_eq,
      List.range_succ, show Int.fdiv 172800 86400 = 2 from by decide,
      show Int.fdiv 86400 86400 = 1 from by decide]
  refine ⟨hmap, ?_⟩
  rw [hmap]
  decide

/-- C7, amended: only the `YahooFinanceChart` normalizer sorts: its output is
always sorted ascending by date (non-strictly - duplicate dates survive the
sort), while the `RealStockChart` normalizer returns points in payload order,
so its dates are ascending only when the payload's timestamps already are. -/
theorem claim_C7_amended_yahoo_sorted (timestamps : List ℤ) (q : RawQuote) :
    List.Sorted (fun a b : StockData => a.date ≤ b.date)
      (fetchYahooFinanceDataPoints timestamps q) := by
  unfold fetchYahooFinanceDataPoints sortByDate
  exact List.sorted_insertionSort _ _

/-- Per-symbol synthetic profile (`stockConfigs` entries in
`RealStockChart.tsx` lines 110-122): `base`, `range: [lo, hi]`,
`volatility`, `trend`. -/
structure StockConfig where
  base : ℚ
  rangeLo : ℚ
  rangeHi : ℚ
  volatility : ℚ
  trend : ℚ

/-- `stockConfigs[symbol] || stockConfigs['default']` of
`RealStockChart.tsx`. -/
def stockConfigs (symbol : String) : StockConfig :=
  if symbol = "TMDX" then { base := 117, rangeLo := 80, rangeHi := 180, volatility := 45/1000, trend := 1/1000 }
  else if symbol = "AAPL" then { base := 180, rangeLo := 150, rangeHi := 200, volatility := 2/100, trend := 1/1000 }
  else if symbol = "TSLA" then { base := 250, rangeLo := 180, rangeHi := 350, volatility := 45/1000, trend := 2/1000 }
  else { base := 100, rangeLo := 80, rangeHi := 130, volatility := 25/1000, trend := 0 }

/-- The values drawn from `Math.random()` (each in `[0, 1)`) during one loop
iteration of `generateMockData`, plus `sinDay`, the value of
`Math.sin(i / 15)` (an abstract real in `[-1, 1]`; the sine itself is
transcendental and irrelevant to the invariants, since the price is clamped
to the profile range right after it is applied). -/
structure DayDraws where
  walk : ℚ
  momentum : ℚ
  range : ℚ
  direction : ℚ
  up : ℚ
  down : ℚ
  vol : ℚ
  sinDay : ℚ

/-- The draws are possible outputs of `Math.random()` (and of `Math.sin`). -/
def validDraws (d : DayDraws) : Prop :=
  0 ≤ d.walk ∧ d.walk < 1 ∧ 0 ≤ d.momentum ∧ d.momentum < 1 ∧
    0 ≤ d.range ∧ d.range < 1 ∧ 0 ≤ d.direction ∧ d.direction < 1 ∧
    0 ≤ d.up ∧ d.up < 1 ∧ 0 ≤ d.down ∧ d.down < 1 ∧
    0 ≤ d.vol ∧ d.vol < 1 ∧ -1 ≤ d.sinDay ∧ d.sinDay ≤ 1

/-- One iteration of the `generateMockData` loop in `RealStockChart.tsx`
(lines 127-171) at day index `i` with entering price `price0`: returns the
pushed `StockData` point and the raw `close` that becomes the next
`currentPrice`. -/
def genDay (symbol : String) (config : StockConfig) (today : ℤ) (i : ℕ) (price0 : ℚ)
    (d : DayDraws) : StockData × ℚ :=
  let cyclicalTrend := d.sinDay * (5/1000)
  let randomWalk := (d.walk - 1/2) * config.volatility * 2
  let momentum := (d.momentum - 1/2) * (15/1000)
  let reversion := ((config.base - price0) / config.base) * (5/1000)
  let totalChange := config.trend + cyclicalTrend + randomWalk + momentum + reversion
  let price1 := price0 * (1 + totalChange)
  let price2 := max config.rangeLo (min config.rangeHi price1)
  let opn := price2
  let dayRange := config.volatility * (3/10 + d.range * (7/10))
  let dailyDirection := d.direction - 1/2
  let close := opn * (1 + dailyDirection * dayRange)
  let maxPrice := max opn close
  let minPrice := min opn close
  let high := maxPrice * (1 + d.up * (2/100))
  let low := minPrice * (1 - d.down * (2/100))
  let priceChange := |(close - opn) / opn|
  let baseVolume : ℚ := if symbol = "TMDX" then 400000 else 1000000
  let volume : ℤ := ⌊baseVolume * (1 + priceChange * 8) * (1/2 + d.vol)⌋
  ({ date := today - i, opn := round2 opn, high := round2 high, low := round2 low,
     close := round2 close, volume := (volume : ℚ) }, close)

/-- The `for (let i = days; i >= 0; i--)` loop of `generateMockData`:
`draws n` are the random values consumed at day index `n`. -/
def genLoop (symbol : String) (config : StockConfig) (today : ℤ) (draws : ℕ → DayDraws) :
    ℕ → ℚ → List StockData
  | 0, price => [(genDay symbol config today 0 price (draws 0)).1]
  | n + 1, price =>
      (genDay symbol config today (n + 1) price (draws (n + 1))).1 ::
        genLoop symbol config today draws n (genDay symbol config today (n + 1) price (draws (n + 1))).2

/-- `generateMockData` of `RealStockChart.tsx` (lines 106-174): the initial
price is `config.base + (Math.random() - 0.5) * 15` (random draw `r0`). -/
def generateMockData (symbol : String) (days : ℕ) (today : ℤ) (r0 : ℚ)
    (draws : ℕ → DayDraws) : List StockData :=
  genLoop symbol (stockConfigs symbol) today draws days
    ((stockConfigs symbol).base + (r0 - 1/2) * 15)

theorem stockConfigs_ok (symbol : String) :
    0 < (stockConfigs symbol).rangeLo ∧ 0 ≤ (stockConfigs symbol).volatility ∧
      (stockConfigs symbol).volatility ≤ 1 := by
  unfold stockConfigs
  split_ifs <;> norm_num

theorem genDay_ok (symbol : String) (config : StockConfig) (today : ℤ) (i : ℕ)
    (price0 : ℚ) (d : DayDraws) (hd : validDraws d) (hlo : 0 < config.rangeLo)
    (hv0 : 0 ≤ config.volatility) (hv1 : config.volatility ≤ 1) :
    max (genDay symbol config today i price0 d).1.opn
        (genDay symbol config today i price0 d).1.close ≤
      (genDay symbol config today i price0 d).1.high ∧
    (genDay symbol config today i price0 d).1.low ≤
      min (genDay symbol config today i price0 d).1.opn
        (genDay symbol config today i price0 d).1.close ∧
    0 ≤ (genDay symbol config today i price0 d).1.volume ∧
    0 < (genDay symbol config today i price0 d).2 := by
  obtain ⟨hw0, hw1, hm0, hm1, hr0, hr1, hd0, hd1, hu0, hu1, hn0, hn1, hv0d, hv1d, hs0, hs1⟩ := hd
  simp only [genDay]
  set o : ℚ := max config.rangeLo (min config.rangeHi
    (price0 * (1 + (config.trend + d.sinDay * (5/1000) +
      (d.walk - 1/2) * config.volatility * 2 + (d.momentum - 1/2) * (15/1000) +
      (config.base - price0) / config.base * (5/1000))))) with ho_def
  have ho : 0 < o := lt_of_lt_of_le hlo (le_max_left _ _)
  set dr : ℚ := config.volatility * (3/10 + d.range * (7/10)) with hdr_def
  have hdr0 : 0 ≤ dr := mul_nonneg hv0 (by linarith)
  have hdr1 : dr ≤ 1 := by
    have h1 : 3/10 + d.range * (7/10) ≤ 1 := by linarith
    nlinarith
  have hddlo : -(1/2) ≤ d.direction - 1/2 := by linarith
  have hfac : 0 < 1 + (d.direction - 1/2) * dr := by
    have h1 : -(1/2) * dr ≤ (d.direction - 1/2) * dr := mul_le_mul_of_nonneg_right hddlo hdr0
    nlinarith
  set close : ℚ := o * (1 + (d.direction - 1/2) * dr) with hclose_def
  have hclose : 0 < close := mul_pos ho hfac
  have hmax0 : 0 ≤ max o close := le_max_of_le_left (le_of_lt ho)
  have hmin0 : 0 ≤ min o close := le_min (le_of_lt ho) (le_of_lt hclose)
  have hhigh : max o close ≤ max o close * (1 + d.up * (2/100)) := by
    apply le_mul_of_one_le_right hmax0
    nlinarith
  have hlow : min o close * (1 - d.down * (2/100)) ≤ min o close := by
    apply mul_le_of_le_one_right hmin0
    nlinarith
  refine ⟨?_, ?_, ?_, hclose⟩
  · rw [← round2_max]
    exact round2_le_round2 hhigh
  · rw [← round2_min]
    exact round2_le_round2 hlow
  · have hbv : (0 : ℚ) ≤ (if symbol = "TMDX" then (400000 : ℚ) else 1000000) := by
      split_ifs <;> norm_num
    have habs : (0 : ℚ) ≤ |(close - o) / o| := abs_nonneg _
    have hprod : (0 : ℚ) ≤ (if symbol = "TMDX" then (400000 : ℚ) else 1000000) *
        (1 + |(close - o) / o| * 8) * (1/2 + d.vol) := by
      apply mul_nonneg (mul_nonneg hbv (by linarith)) (by linarith)
    have hfl : 0 ≤ ⌊(if symbol = "TMDX" then (400000 : ℚ) else 1000000) *
        (1 + |(close - o) / o| * 8) * (1/2 + d.vol)⌋ := Int.floor_nonneg.mpr hprod
    exact_mod_cast hfl

theorem genLoop_ok (symbol : String) (config : StockConfig) (today : ℤ)
    (draws : ℕ → DayDraws) (hdraws : ∀ n, validDraws (draws n))
    (hlo : 0 < config.rangeLo) (hv0 : 0 ≤ config.volatility) (hv1 : config.volatility ≤ 1) :
    ∀ (n : ℕ) (price : ℚ) (p : StockData),
      p ∈ genLoop symbol config today draws n price →
        max p.opn p.close ≤ p.high ∧ p.low ≤ min p.opn p.close ∧ 0 ≤ p.volume := by
  intro n
  induction n with
  | zero =>
      intro price p hp
      rw [genLoop, List.mem_singleton] at hp
      subst hp
      obtain ⟨h1, h2, h3, -⟩ := genDay_ok symbol config today 0 price (draws 0)
        (hdraws 0) hlo hv0 hv1
      exact ⟨h1, h2, h3⟩
  | succ n ih =>
      intro price p hp
      rw [genLoop, List.mem_cons] at hp
      rcases hp with hp | hp
      · subst hp
        obtain ⟨h1, h2, h3, -⟩ := genDay_ok symbol config today (n + 1) price (draws (n + 1))
          (hdraws (n + 1)) hlo hv0 hv1
        exact ⟨h1, h2, h3⟩
      · exact ih _ p hp

/-- One iteration of the simpler `generateMockData` loop in `StockChart.tsx`
(lines 37-65): fixed volatility 0.02, price floored at 10, close within
`±1%`, wick factors within `1%`, volume `Math.floor(Math.random() * 1000000)
+ 100000`.  The draw fields reused: `walk` is the price-change draw,
`direction` the close draw, `up`/`down` the wick draws, `vol` the volume
draw. -/
def genDayS (today : ℤ) (i : ℕ) (base0 : ℚ) (d : DayDraws) : StockData × ℚ :=
  let change := (d.walk - 1/2) * 2 * (2/100)
  let base1 := base0 * (1 + change)
  let base2 := max base1 10
  let opn := base2
  let close := opn * (1 + (d.direction - 1/2) * (2/100))
  let high := max opn close * (1 + d.up * (1/100))
  let low := min opn close * (1 - d.down * (1/100))
  let volume : ℤ := ⌊d.vol * 1000000⌋ + 100000
  ({ date := today - i, opn := round2 opn, high := round2 high, low := round2 low,
     close := round2 close, volume := (volume : ℚ) }, close)

/-- The `for (let i = days; i >= 0; i--)` loop of `StockChart.tsx`'s
generator. -/
def genLoopS (today : ℤ) (draws : ℕ → DayDraws) : ℕ → ℚ → List StockData
  | 0, base => [(genDayS today 0 base (draws 0)).1]
  | n + 1, base =>
      (genDayS today (n + 1) base (draws (n + 1))).1 ::
        genLoopS today draws n (genDayS today (n + 1) base (draws (n + 1))).2

/-- `generateMockData` of `StockChart.tsx` (lines 33-68): the initial price is
`50 + Math.random() * 100` (draw `r0`). -/
def generateMockDataS (days : ℕ) (today : ℤ) (r0 : ℚ)
    (draws : ℕ → DayDraws) : List StockData :=
  genLoopS today draws days (50 + r0 * 100)

theorem genDayS_ok (today : ℤ) (i : ℕ) (base0 : ℚ) (d : DayDraws) (hd : validDraws d) :
    max (genDayS today i base0 d).1.opn (genDayS today i base0 d).1.close ≤
      (genDayS today i base0 d).1.high ∧
    (genDayS today i base0 d).1.low ≤
      min (genDayS today i base0 d).1.opn (genDayS today i base0 d).1.close ∧
    0 ≤ (genDayS today i base0 d).1.volume := by
  obtain ⟨hw0, hw1, hm0, hm1, hr0, hr1, hd0, hd1, hu0, hu1, hn0, hn1, hv0d, hv1d, hs0, hs1⟩ := hd
  simp only [genDayS]
  set o : ℚ := max (base0 * (1 + (d.walk - 1/2) * 2 * (2/100))) 10 with ho_def
  have ho : 0 < o := lt_of_lt_of_le (by norm_num) (le_max_right _ 10)
  have hfac : 0 < 1 + (d.direction - 1/2) * (2/100) := by nlinarith
  set close : ℚ := o * (1 + (d.direction - 1/2) * (2/100)) with hclose_def
  have hclose : 0 < close := mul_pos ho hfac
  have hmax0 : 0 ≤ max o close := le_max_of_le_left (le_of_lt ho)
  have hmin0 : 0 ≤ min o close := le_min (le_of_lt ho) (le_of_lt hclose)
  have hhigh : max o close ≤ max o close * (1 + d.up * (1/100)) := by
    apply le_mul_of_one_le_right hmax0
    nlinarith
  have hlow : min o close * (1 - d.down * (1/100)) ≤ min o close := by
    apply mul_le_of_le_one_right hmin0
    nlinarith
  refine ⟨?_, ?_, ?_⟩
  · rw [← round2_max]
    exact round2_le_round2 hhigh
  · rw [← round2_min]
    exact round2_le_round2 hlow
  · have hfl : 0 ≤ ⌊d.vol * 1000000⌋ := Int.floor_nonneg.mpr (by nlinarith)
    have : (0 : ℤ) ≤ ⌊d.vol * 1000000⌋ + 100000 := by omega
    exact_mod_cast this

theorem genLoopS_ok (today : ℤ) (draws : ℕ → DayDraws)
    (hdraws : ∀ n, validDraws (draws n)) :
    ∀ (n : ℕ) (base : ℚ) (p : StockData),
      p ∈ genLoopS today draws n base →
        max p.opn p.close ≤ p.high ∧ p.low ≤ min p.opn p.close ∧ 0 ≤ p.volume := by
  intro n
  induction n with
  | zero =>
      intro base p hp
      rw [genLoopS, List.mem_singleton] at hp
      subst hp
      exact genDayS_ok today 0 base (draws 0) (hdraws 0)
  | succ n ih =>
      intro base p hp
      rw [genLoopS, List.mem_cons] at hp
      rcases hp with hp | hp
      · subst hp
        exact genDayS_ok today (n + 1) base (draws (n + 1)) (hdraws (n + 1))
      · exact ih _ p hp

/-- C8: every point produced by the synthetic generators
(`generateMockData` of `RealStockChart.tsx` and of `StockChart.tsx`), for any
possible stream of `Math.random()` outputs, satisfies
`high ≥ max(open, close)`, `low ≤ min(open, close)` and `volume ≥ 0`,
including after the two-decimal `toFixed(2)` rounding applied when the point
is emitted (the rounding is monotone and commutes with `max`/`min`). -/
theorem claim_C8_generator_invariants :
    (∀ (symbol : String) (days : ℕ) (today : ℤ) (r0 : ℚ) (draws : ℕ → DayDraws),
      (∀ n, validDraws (draws n)) →
      ∀ p ∈ generateMockData symbol days today r0 draws,
        max p.opn p.close ≤ p.high ∧ p.low ≤ min p.opn p.close ∧ 0 ≤ p.volume) ∧
    (∀ (days : ℕ) (today : ℤ) (r0 : ℚ) (draws : ℕ → DayDraws),
      (∀ n, validDraws (draws n)) →
      ∀ p ∈ generateMockDataS days today r0 draws,
        max p.opn p.close ≤ p.high ∧ p.low ≤ min p.opn p.close ∧ 0 ≤ p.volume) := by
  constructor
  · intro symbol days today r0 draws hdraws p hp
    obtain ⟨h1, h2, h3⟩ := stockConfigs_ok symbol
    exact genLoop_ok symbol _ today draws hdraws h1 h2 h3 days _ p hp
  · intro days today r0 draws hdraws p hp
    exact genLoopS_ok today draws hdraws days _ p hp

/-- An all-zero random stream (0 is a possible `Math.random()` output). -/
def zeroDraws : DayDraws :=
  { walk := 0, momentum := 0, range := 0, direction := 0, up := 0, down := 0,
    vol := 0, sinDay := 0 }

/-- The single point generated for an unknown symbol with `days = 0`,
`r0 = 1/2` and all-zero draws. -/
def witnessPointC8 : StockData :=
  { date := 0, opn := 387/4, high := 387/4, low := 9639/100, close := 9639/100,
    volume := 515000 }

/-- Witness for C8 at a concrete generator run. -/
theorem claim_C8_generator_invariants_witness :
    validDraws zeroDraws ∧
    witnessPointC8 ∈ generateMockData "X" 0 0 (1/2) (fun _ => zeroDraws) ∧
    (max witnessPointC8.opn witnessPointC8.close ≤ witnessPointC8.high ∧
      witnessPointC8.low ≤ min witnessPointC8.opn witnessPointC8.close ∧
      0 ≤ witnessPointC8.volume) := by
  have hvd : validDraws zeroDraws := by norm_num [validDraws, zeroDraws]
  have hconf : stockConfigs "X" =
      { base := 100, rangeLo := 80, rangeHi := 130, volatility := 25/1000, trend := 0 } := by
    rw [stockConfigs, if_neg (show ¬("X" : String) = "TMDX" by decide),
      if_neg (show ¬("X" : String) = "AAPL" by decide),
      if_neg (show ¬("X" : String) = "TSLA" by decide)]
  have hmem : witnessPointC8 ∈ generateMockData "X" 0 0 (1/2) (fun _ => zeroDraws) := by
    rw [generateMockData, hconf]
    norm_num [genLoop, genDay, zeroDraws, witnessPointC8, round2, round_eq, min_def,
      max_def, abs_eq_max_neg, if_neg (show ¬("X" : String) = "TMDX" by decide)]
  exact ⟨hvd, hmem, claim_C8_generator_invariants.1 "X" 0 0 (1/2) (fun _ => zeroDraws)
    (fun _ => hvd) witnessPointC8 hmem⟩

/-- A JavaScript number as relevant to the rendering pipeline: a finite value
(exact rational), an infinity, or `NaN`. -/
inductive JsNum where
  | num (q : ℚ)
  | posInf
  | negInf
  | nan
deriving DecidableEq, Repr

/-- JavaScript unary minus. -/
def jsNeg : JsNum → JsNum
  | .num q => .num (-q)
  | .posInf => .negInf
  | .negInf => .posInf
  | .nan => .nan

/-- JavaScript addition on the extended number line. -/
def jsAdd : JsNum → JsNum → JsNum
  | .nan, _ => .nan
  | _, .nan => .nan
  | .num a, .num b => .num (a + b)
  | .posInf, .negInf => .nan
  | .negInf, .posInf => .nan
  | .posInf, _ => .posInf
  | .negInf, _ => .negInf
  | .num _, .posInf => .posInf
  | .num _, .negInf => .negInf

/-- JavaScript subtraction: `a - b = a + (-b)`. -/
def jsSub (a b : JsNum) : JsNum := jsAdd a (jsNeg b)

/-- JavaScript multiplication; `0 * Infinity` is `NaN`. -/
def jsMul : JsNum → JsNum → JsNum
  | .nan, _ => .nan
  | _, .nan => .nan
  | .num a, .num b => .num (a * b)
  | .num a, .posInf => if a = 0 then .nan else if 0 < a then .posInf else .negInf
  | .num a, .negInf => if a = 0 then .nan else if 0 < a then .negInf else .posInf
  | .posInf, .num b => if b = 0 then .nan else if 0 < b then .posInf else .negInf
  | .negInf, .num b => if b = 0 then .nan else if 0 < b then .negInf else .posInf
  | .posInf, .posInf => .posInf
  | .posInf, .negInf => .negInf
  | .negInf, .posInf => .negInf
  | .negInf, .negInf => .posInf

/-- JavaScript division; a nonzero finite value divided by `(+)0` gives a
signed infinity, `0 / 0` gives `NaN` (the sign of JS `-0` is outside this
model: zero is unsigned here, as produced by `maxPrice - minPrice`). -/
def jsDiv : JsNum → JsNum → JsNum
  | .nan, _ => .nan
  | _, .nan => .nan
  | .num a, .num b =>
      if b = 0 then (if a = 0 then .nan else if 0 < a then .posInf else .negInf)
      else .num (a / b)
  | .num _, .posInf => .num 0
  | .num _, .negInf => .num 0
  | .posInf, .num b => if 0 ≤ b then .posInf else .negInf
  | .negInf, .num b => if 0 ≤ b then .negInf else .posInf
  | _, _ => .nan

/-- `Math.min(...prices)`: `Infinity` on no arguments, else the least. -/
def jsMinList : List ℚ → JsNum
  | [] => .posInf
  | x :: xs => .num (xs.foldl min x)

/-- `Math.max(...prices)`: `-Infinity` on no arguments, else the greatest. -/
def jsMaxList : List ℚ → JsNum
  | [] => .negInf
  | x :: xs => .num (xs.foldl max x)

/-- `visibleData.flatMap((d) => [d.high, d.low])` in `drawChart`. -/
def chartPrices (visibleData : List StockData) : List ℚ :=
  visibleData.flatMap fun d => [d.high, d.low]

/-- `priceScale = chartHeight / (maxPrice - minPrice)` of `drawChart` in
`RealStockChart.tsx` (lines 238-242), with `padding = 60` and
`chartHeight = canvas.height - padding * 2`. -/
def priceScale (visibleData : List StockData) (canvasHeight : ℚ) : JsNum :=
  let chartHeight := canvasHeight - 60 * 2
  jsDiv (.num chartHeight)
    (jsSub (jsMaxList (chartPrices visibleData)) (jsMinList (chartPrices visibleData)))

/-- The four pixel y-coordinates computed for one candle. -/
structure CandleGeom where
  openY : JsNum
  closeY : JsNum
  highY : JsNum
  lowY : JsNum
deriving DecidableEq, Repr

/-- The candle geometry of `drawChart` in `RealStockChart.tsx`
(lines 285-313): `y = padding + (maxPrice - price) * priceScale` for each of
the four prices of `item`. -/
def candleGeom (visibleData : List StockData) (canvasHeight : ℚ)
    (item : StockData) : CandleGeom :=
  let maxPrice := jsMaxList (chartPrices visibleData)
  let scale := priceScale visibleData canvasHeight
  { openY := jsAdd (.num 60) (jsMul (jsSub maxPrice (.num item.opn)) scale)
    closeY := jsAdd (.num 60) (jsMul (jsSub maxPrice (.num item.close)) scale)
    highY := jsAdd (.num 60) (jsMul (jsSub maxPrice (.num item.high)) scale)
    lowY := jsAdd (.num 60) (jsMul (jsSub maxPrice (.num item.low)) scale) }

/-- A visible point whose four prices are all equal (flat slice). -/
def flatPointC9 : StockData :=
  { date := 0, opn := 100, high := 100, low := 100, close := 100, volume := 1000 }

/-- C9: on a non-empty visible slice whose prices are all equal
(`minPrice = maxPrice`), `drawChart` divides by the zero price range:
`priceScale` becomes `Infinity` and every candle y-coordinate becomes
`0 * Infinity + 60 = NaN` - the geometry is not the finite flat line the
specification requires (the canvas then silently draws nothing; no exception
is thrown). -/
theorem claim_C9_flat_slice_nan :
    priceScale [flatPointC9] 500 = JsNum.posInf ∧
    candleGeom [flatPointC9] 500 flatPointC9 =
      { openY := JsNum.nan, closeY := JsNum.nan, highY := JsNum.nan, lowY := JsNum.nan } := by
  constructor
  · norm_num [priceScale, chartPrices, flatPointC9, jsMaxList, jsMinList, jsSub, jsAdd,
      jsNeg, jsDiv]
  · norm_num [candleGeom, priceScale, chartPrices, flatPointC9, jsMaxList, jsMinList,
      jsSub, jsAdd, jsNeg, jsDiv, jsMul]
